import Mathlib

/-!
Verification of the content script of the auto-add-google-meet extension
(src/unnamed/part_001).  The live DOM is shallowly embedded as a tree of
elements; each source function operating on the DOM is translated into a
pure Lean function over that tree.  Asynchronous bounded waits are modelled
by an explicit check schedule (one predicate evaluation per tick of the
fixed cadence), and the outcomes of externally-driven DOM changes that the
waits observe are supplied as oracle inputs.
-/

set_option maxHeartbeats 1000000

namespace MeetAutoAdd

/-! ## String utilities mirroring the JavaScript string operations used -/

/-- Decidable list-prefix test used to implement substring search. -/
def isPrefixL : List Char → List Char → Bool
  | [], _ => true
  | _ :: _, [] => false
  | a :: as, b :: bs => a == b && isPrefixL as bs

/-- Decidable list-infix test used to implement substring search. -/
def isInfixL (pat : List Char) : List Char → Bool
  | [] => isPrefixL pat []
  | l@(_ :: rest) => isPrefixL pat l || isInfixL pat rest

/-- JavaScript `s.includes(pat)`: substring containment. -/
def strContains (s pat : String) : Bool :=
  isInfixL pat.data s.data

/-- JavaScript `s.toLowerCase()` (ASCII-relevant part). -/
def lowerStr (s : String) : String :=
  String.mk (s.data.map Char.toLower)

/-- JavaScript `s.trim()`: strip leading and trailing whitespace. -/
def trimChars (s : String) : String :=
  String.mk (((s.data.dropWhile Char.isWhitespace).reverse.dropWhile Char.isWhitespace).reverse)

/-- One pass of JavaScript `s.replace(/\s+/g, ' ')`: collapse whitespace
runs to a single space.  The `prev` flag records whether the previous
character was part of a whitespace run. -/
def collapseWsAux : Bool → List Char → List Char
  | _, [] => []
  | prev, c :: rest =>
    if c.isWhitespace then
      if prev then collapseWsAux true rest
      else ' ' :: collapseWsAux true rest
    else c :: collapseWsAux false rest

/-- The normalisation `text.trim().replace(/\s+/g, ' ').toLowerCase()` used
by `findVideoConferencingButton`. -/
def normText (s : String) : String :=
  lowerStr (String.mk (collapseWsAux false (trimChars s).data))

/-! ## The DOM model

An element carries its tag, attribute list, `className`, its own direct
text, the facts the host environment exposes about it (`offsetParent`
nullness and its computed style map), its inline style map, and its child
elements.  Computed styles and `offsetParent` are environment-given facts
about a node, so they are stored as fields. -/

inductive Elem where
  | mk (tag : String) (attrs : List (String × String)) (className : String)
       (ownText : String) (offsetParentNull : Bool)
       (computed : List (String × String)) (inlineStyle : List (String × String))
       (children : List Elem)

def Elem.tag : Elem → String
  | .mk t _ _ _ _ _ _ _ => t

def Elem.attrs : Elem → List (String × String)
  | .mk _ a _ _ _ _ _ _ => a

def Elem.className : Elem → String
  | .mk _ _ c _ _ _ _ _ => c

def Elem.ownText : Elem → String
  | .mk _ _ _ o _ _ _ _ => o

def Elem.offsetParentNull : Elem → Bool
  | .mk _ _ _ _ p _ _ _ => p

def Elem.computed : Elem → List (String × String)
  | .mk _ _ _ _ _ cs _ _ => cs

def Elem.inlineStyle : Elem → List (String × String)
  | .mk _ _ _ _ _ _ i _ => i

def Elem.children : Elem → List Elem
  | .mk _ _ _ _ _ _ _ ch => ch

mutual

/-- Structural Boolean equality on elements (node identity is value
identity in this embedding). -/
def elemBEq : Elem → Elem → Bool
  | .mk t1 a1 c1 o1 p1 cs1 i1 ch1, .mk t2 a2 c2 o2 p2 cs2 i2 ch2 =>
    t1 == t2 && a1 == a2 && c1 == c2 && o1 == o2 && p1 == p2 &&
      cs1 == cs2 && i1 == i2 && elemBEqL ch1 ch2

def elemBEqL : List Elem → List Elem → Bool
  | [], [] => true
  | x :: xs, y :: ys => elemBEq x y && elemBEqL xs ys
  | _, _ => false

end

mutual

/-- All strict descendants of an element in document (preorder) order:
the traversal order of `querySelectorAll`. -/
def descendants : Elem → List Elem
  | .mk _ _ _ _ _ _ _ ch => descList ch

def descList : List Elem → List Elem
  | [] => []
  | c :: cs => c :: (descendants c ++ descList cs)

end

/-- JS `getAttribute`: `none` plays the role of JavaScript `null`. -/
def getAttr (e : Elem) (k : String) : Option String :=
  e.attrs.lookup k

/-- JS `(e.getAttribute(k) || '')`. -/
def getAttrD (e : Elem) (k : String) : String :=
  (getAttr e k).getD ""

/-- A computed-style property (`getComputedStyle(e)[k]`); absent entries
of the stored map read as the empty string. -/
def computedOf (e : Elem) (k : String) : String :=
  (e.computed.lookup k).getD ""

/-- JS `textContent`: the element's own text followed by the text of all its
descendants in document order. -/
def textContent (e : Elem) : String :=
  e.ownText ++ String.join ((descendants e).map Elem.ownText)

/-- JS `classList` membership for class selectors. -/
def hasClass (e : Elem) (c : String) : Bool :=
  (e.className.splitOn " ").contains c

/-! ## Configuration constants (CONFIG) -/

def buttonIdStr : String := "google-meet-auto-add-btn"

def buttonTextStr : String := "Make it a Google Meet"

def primaryColor : String := "#0b57d0"

/-! ## Selector predicates

Each CSS selector string the source passes to `querySelector(All)` is
hand-compiled to the predicate it denotes on an element. -/

/-- Selector `[role="dialog"]`. -/
def isDialogRole (e : Elem) : Bool :=
  getAttr e "role" == some "dialog"

/-- Selector `button, div[role="button"]`. -/
def btnOrDivBtn (e : Elem) : Bool :=
  e.tag == "button" || (e.tag == "div" && getAttr e "role" == some "button")

/-- Selector `button, div[role="button"], a` (anchors of check 2 of
`isVideoConferencingAlreadyAdded`). -/
def btnDivBtnOrAnchor (e : Elem) : Bool :=
  btnOrDivBtn e || e.tag == "a"

/-- Selector `button, div[role="button"], [jsaction]` (candidates of
`findVideoConferencingButton`). -/
def videoBtnCandidate (e : Elem) : Bool :=
  btnOrDivBtn e || (getAttr e "jsaction").isSome

/-- Selector `[data-action-id="save"]`. -/
def dataActionSave (e : Elem) : Bool :=
  getAttr e "data-action-id" == some "save"

/-- Selector `button[aria-label*="Save"]` (attribute substring match is
case-sensitive). -/
def btnAriaSave (e : Elem) : Bool :=
  e.tag == "button" && strContains (getAttrD e "aria-label") "Save"

/-- Selector `#google-meet-auto-add-btn`: id attribute match. -/
def hasId (e : Elem) : Bool :=
  getAttr e "id" == some buttonIdStr

/-- JS `querySelectorAll(sel)` on an element: matching strict descendants in
document order. -/
def qsa (p : Elem → Bool) (e : Elem) : List Elem :=
  (descendants e).filter p

/-- JS `querySelector(sel)` on an element: the first matching strict
descendant in document order. -/
def qs (p : Elem → Bool) (e : Elem) : Option Elem :=
  (descendants e).find? p

/-- JS `dialog.querySelector('#' + CONFIG.buttonId)`. -/
def qsById (d : Elem) : Option Elem :=
  qs hasId d

/-- The number of injected action controls inside a dialog (nodes with the
configured button id among its descendants). -/
def countById (d : Elem) : Nat :=
  (qsa hasId d).length

/-! ## ElementLocator (`findElementWithFallbacks`)

A lookup rule is a selector string as `querySelector` sees it: either a
valid selector (the predicate it denotes) or an invalid one, whose
evaluation raises a query parse error carried as the `Except.error` payload. -/

abbrev SelRule : Type := Except String (Elem → Bool)

/-- JS `findElementWithFallbacks(selectors, context)`: try each rule in
order; `querySelector` of an invalid rule throws, the `catch` logs and
continues with the next rule; the first match is returned, otherwise
`null`.  (The source's string-to-singleton-array coercion is outside this
model: rules are already a list.) -/
def findElementWithFallbacks (rules : List SelRule) (context : Elem) : Option Elem :=
  match rules with
  | [] => none
  | r :: rest =>
    match r with
    | .error _ => findElementWithFallbacks rest context
    | .ok p =>
      match qs p context with
      | some e => some e
      | none => findElementWithFallbacks rest context

/-- The specification reading of the fallback lookup: first non-empty
result of the valid rules in order, `none` when every rule fails or
errors. -/
def fewfSpec (rules : List SelRule) (context : Elem) : Option Elem :=
  rules.findSome? (fun r =>
    match r with
    | .error _ => none
    | .ok p => qs p context)

/-- JS `SELECTORS.eventDialog`. -/
def eventDialogRules : List SelRule :=
  [.ok isDialogRole, .ok (fun e => hasClass e "VfPpkd-dgl2Hf-ppHlrf-sM5MNb")]

/-- JS `SELECTORS.saveButton`. -/
def saveButtonRules : List SelRule :=
  [.ok dataActionSave, .ok btnAriaSave]

/-! ## Detection functions -/

/-- JS `isVisible(element)`: non-null `offsetParent`, computed display not
`none`, computed visibility not `hidden`. -/
def isVisible (e : Elem) : Bool :=
  !e.offsetParentNull && !(computedOf e "display" == "none") &&
    !(computedOf e "visibility" == "hidden")

/-- Selector `[href*="meet.google.com"]`. -/
def meetLinkSel (e : Elem) : Bool :=
  match getAttr e "href" with
  | some h => strContains h "meet.google.com"
  | none => false

/-- The per-link test of check 1 of `isVideoConferencingAlreadyAdded`:
`href && !href.includes('abc-defg-hij') && !href.includes('placeholder')`. -/
def realMeetHref (link : Elem) : Bool :=
  match getAttr link "href" with
  | some h => !(h == "") && !strContains h "abc-defg-hij" && !strContains h "placeholder"
  | none => false

/-- The per-control test of check 2 of `isVideoConferencingAlreadyAdded`:
a "join with google meet" text or label that is not an "add" control. -/
def joinWithMeetMarker (btn : Elem) : Bool :=
  (strContains (lowerStr (textContent btn)) "join with google meet" ||
     strContains (lowerStr (getAttrD btn "aria-label")) "join with google meet") &&
    !strContains (lowerStr (textContent btn)) "add" &&
    !strContains (lowerStr (getAttrD btn "aria-label")) "add"

/-- Selector `[data-field="conferenceData"]`. -/
def conferenceDataField (e : Elem) : Bool :=
  getAttr e "data-field" == some "conferenceData"

/-- JS `isVideoConferencingAlreadyAdded(dialog)`: real Meet link (placeholder
values excluded), or a "Join with Google Meet" control that is not an
"Add" control, or a `conferenceData` field mentioning meet without the
example code. -/
def isVideoConferencingAlreadyAdded (dialog : Elem) : Bool :=
  (qsa meetLinkSel dialog).any realMeetHref ||
  (qsa btnDivBtnOrAnchor dialog).any joinWithMeetMarker ||
  (match qs conferenceDataField dialog with
   | some sec =>
     strContains (lowerStr (textContent sec)) "meet" &&
       !strContains (lowerStr (textContent sec)) "abc-defg-hij"
   | none => false)

/-- JS `findVideoConferencingButton(dialog)`: first candidate whose
normalised text or aria-label is exactly one of the two add-video
phrases. -/
def findVideoConferencingButton (dialog : Elem) : Option Elem :=
  (qsa videoBtnCandidate dialog).find? (fun c =>
    let tx := normText (textContent c)
    let al := normText (getAttrD c "aria-label")
    tx == "add video conferencing" || tx == "add google meet video conferencing" ||
      al == "add video conferencing" || al == "add google meet video conferencing")

/-- JS `findEventDialog(element)`: fallback lookup inside the element, then
the element itself via `matches`, then a computed-style visibility
filter. -/
def findEventDialog (element : Elem) : Option Elem :=
  let d0 := findElementWithFallbacks eventDialogRules element
  let d1 :=
    match d0 with
    | some d => some d
    | none =>
      if isDialogRole element then some element
      else if hasClass element "VfPpkd-dgl2Hf-ppHlrf-sM5MNb" then some element
      else none
  match d1 with
  | some d =>
    if computedOf d "display" == "none" || computedOf d "visibility" == "hidden" then none
    else some d
  | none => none

/-- JS `findVisibleSaveButton(dialog)`: first visible button whose trimmed
text is `Save`, else the first visible match of each save selector in
order. -/
def findVisibleSaveButton (dialog : Elem) : Option Elem :=
  match (qsa btnOrDivBtn dialog).find? (fun b =>
      trimChars (textContent b) == "Save" && isVisible b) with
  | some b => some b
  | none =>
    match (qsa dataActionSave dialog).find? isVisible with
    | some b => some b
    | none => (qsa btnAriaSave dialog).find? isVisible

/-- The save-control lookup performed by `clickSaveButton(dialog)` at
commit time: the fallback selector lookup, then any button whose trimmed
text is `Save` — with no visibility filtering. -/
def findSaveForCommit (dialog : Elem) : Option Elem :=
  match findElementWithFallbacks saveButtonRules dialog with
  | some b => some b
  | none => (qsa btnOrDivBtn dialog).find? (fun b => trimChars (textContent b) == "Save")

/-- JS `findMoreOptionsButton(dialog)`. -/
def findMoreOptionsButton (dialog : Elem) : Option Elem :=
  (qsa btnOrDivBtn dialog).find? (fun b =>
    lowerStr (trimChars (textContent b)) == "more options")

/-- A node matches one of the save/commit role criteria (either lookup
path), visibility aside. -/
def saveCandidate (e : Elem) : Bool :=
  (btnOrDivBtn e && trimChars (textContent e) == "Save") || dataActionSave e || btnAriaSave e

/-! ## Style capture (`getVisualStyles`) and button creation -/

/-- The presentation attributes `getVisualStyles` captures. -/
structure VisualStyles where
  backgroundColor : String
  height : String
  padding : String
  borderRadius : String
  boxShadow : String
  border : String
  color : String
  fontFamily : String
  fontSize : String
  fontWeight : String
  letterSpacing : String
  textTransform : String
  cursor : String
deriving DecidableEq

mutual

/-- JS `findTextWrapper` inside `getVisualStyles`: the deepest child that
holds the text (no element children and non-blank text). -/
def findTextWrapperE : Elem → Option Elem
  | e@(.mk _ _ _ _ _ _ _ ch) =>
    if ch.isEmpty then
      if 0 < (trimChars (textContent e)).length then some e else none
    else findTextWrapperL ch

def findTextWrapperL : List Elem → Option Elem
  | [] => none
  | c :: cs =>
    match findTextWrapperE c with
    | some r => some r
    | none => findTextWrapperL cs

end

/-- JS `getVisualStyles(element)`: computed presentation of the element, with
the border shorthand recomposed when empty and the text properties taken
from the deepest text wrapper when one exists. -/
def getVisualStyles (e : Elem) : VisualStyles :=
  let border0 := computedOf e "border"
  let border :=
    if border0 == "" then
      if !(computedOf e "borderStyle" == "") && !(computedOf e "borderStyle" == "none") then
        computedOf e "borderWidth" ++ " " ++ computedOf e "borderStyle" ++ " " ++
          computedOf e "borderColor"
      else "none"
    else border0
  let textSrc :=
    match findTextWrapperE e with
    | some w => w
    | none => e
  { backgroundColor := computedOf e "backgroundColor"
    height := computedOf e "height"
    padding := computedOf e "padding"
    borderRadius := computedOf e "borderRadius"
    boxShadow := computedOf e "boxShadow"
    border := border
    color := computedOf textSrc "color"
    fontFamily := computedOf textSrc "fontFamily"
    fontSize := computedOf textSrc "fontSize"
    fontWeight := computedOf textSrc "fontWeight"
    letterSpacing := computedOf textSrc "letterSpacing"
    textTransform := computedOf textSrc "textTransform"
    cursor := computedOf e "cursor" }

/-- JS `createMeetButton(styles)`: a fresh button element with the configured
id, class and label and the `cssText` assembled from the captured styles.
(`addMeetButton` always passes a full `getVisualStyles` record, so the
object spread over the defaults reduces to the captured record; falsy
`letterSpacing`/`textTransform` fall back as in the template.  The ripple
and click listeners are behaviour, not tree content.) -/
def createMeetButton (s : VisualStyles) : Elem :=
  .mk "button" [("id", buttonIdStr), ("type", "button")] "google-meet-auto-add-button"
    buttonTextStr false []
    [("background-color", s.backgroundColor),
     ("color", s.color),
     ("border", s.border),
     ("border-radius", s.borderRadius),
     ("padding", s.padding),
     ("font-family", s.fontFamily),
     ("font-size", s.fontSize),
     ("font-weight", s.fontWeight),
     ("letter-spacing", if s.letterSpacing == "" then "normal" else s.letterSpacing),
     ("text-transform", if s.textTransform == "" then "none" else s.textTransform),
     ("box-shadow", s.boxShadow),
     ("cursor", "pointer"),
     ("transition", "background-color 0.2s, box-shadow 0.2s"),
     ("margin", "0 8px"),
     ("white-space", "nowrap"),
     ("height", s.height),
     ("display", "inline-flex"),
     ("align-items", "center"),
     ("justify-content", "center"),
     ("position", "relative"),
     ("overflow", "hidden")]
    []

/-! ## Demoting the save button (`styleSaveButtonAsSecondary`)

The in-place style mutations are modelled as pure node transforms; the
`MutationObserver` registrations re-apply these same transforms on later
external mutations and have no immediate tree effect, so they contribute
nothing to a single-invocation state. -/

/-- JS `style.setProperty(k, v)` (the `!important` priority flag has no tree
counterpart beyond the value itself). -/
def setProp (k v : String) : Elem → Elem
  | .mk t a c o p cs i ch =>
    .mk t a c o p cs ((k, v) :: i.filter (fun kv => !(kv.1 == k))) ch

/-- JS `e.className = c`. -/
def withClassName (c : String) : Elem → Elem
  | .mk t a _ o p cs i ch => .mk t a c o p cs i ch

/-- JS `e.style.cssText = ''`. -/
def clearInline : Elem → Elem
  | .mk t a c o p cs _ ch => .mk t a c o p cs [] ch

mutual

/-- Force the color property on a node and every descendant. -/
def setColorAllDeepE (v : String) : Elem → Elem
  | .mk t a c o p cs i ch =>
    .mk t a c o p cs (("color", v) :: i.filter (fun kv => !(kv.1 == "color")))
      (setColorAllDeepL v ch)

def setColorAllDeepL (v : String) : List Elem → List Elem
  | [] => []
  | c :: cs => setColorAllDeepE v c :: setColorAllDeepL v cs

end

/-- JS `saveBtn.querySelectorAll('*').forEach(child => child.style.setProperty('color', ...))`:
force the color on every strict descendant, leaving the root untouched. -/
def setColorDesc (v : String) : Elem → Elem
  | .mk t a c o p cs i ch => .mk t a c o p cs i (setColorAllDeepL v ch)

/-- JS `applyClasses` of the class-copy branch: copy the reference control's
class (clearing inline styles) unless already equal, then force the
reference text color on all children and the button itself. -/
def applyClassesT (targetClass targetColor : String) (saveBtn : Elem) : Elem :=
  let sb :=
    if saveBtn.className == targetClass then saveBtn
    else withClassName targetClass (clearInline saveBtn)
  setProp "color" targetColor (setColorDesc targetColor sb)

/-- JS `applyStyles` of the manual fallback branch: the fixed secondary style
set on the button, then the secondary color on every child.
(`secondaryStyles.fontSize`/`fontFamily` are absent from the source
object; `setProperty` with an undefined value is dropped by the CSSOM.) -/
def applyStylesFallbackT (saveBtn : Elem) : Elem :=
  let props := [("background-color", "transparent"),
                ("color", primaryColor),
                ("border", "none"),
                ("padding", "0 24px"),
                ("border-radius", "4px"),
                ("font-weight", "500"),
                ("box-shadow", "none"),
                ("text-transform", "none"),
                ("letter-spacing", "normal"),
                ("min-width", "auto")]
  setColorDesc primaryColor (props.foldl (fun e kv => setProp kv.1 kv.2 e) saveBtn)

/-- JS `styleSaveButtonAsSecondary(saveBtn, dialog)` as the transform it
applies to the save button (hover listeners are behaviour, not tree
content). -/
def styleSaveButtonAsSecondaryT (saveBtn dialog : Elem) : Elem :=
  match findMoreOptionsButton dialog with
  | some mo => applyClassesT mo.className (getVisualStyles mo).color saveBtn
  | none => applyStylesFallbackT saveBtn

/-! ## Tree surgery -/

mutual

/-- Replace the first occurrence (in document order) of `t` by `r` and
insert `b` right after it among its parent's children: the combined
effect of `insertBefore(button, saveBtn.nextSibling)` /
`appendChild(button)` plus the in-place demotion of the save button.  The
flag reports whether `t` was found. -/
def spliceE (t b r : Elem) : Elem → Elem × Bool
  | .mk tg a c o p cs i ch =>
    (.mk tg a c o p cs i (spliceL t b r ch).1, (spliceL t b r ch).2)

def spliceL (t b r : Elem) : List Elem → List Elem × Bool
  | [] => ([], false)
  | c :: cs =>
    if elemBEq c t then (r :: b :: cs, true)
    else if (spliceE t b r c).2 then ((spliceE t b r c).1 :: cs, true)
    else (c :: (spliceL t b r cs).1, (spliceL t b r cs).2)

end

mutual

/-- Remove the first node (in document order) satisfying `p`, together
with its subtree: `querySelector(sel).remove()`. -/
def removeE (p : Elem → Bool) : Elem → Elem × Bool
  | .mk tg a c o pa cs i ch =>
    (.mk tg a c o pa cs i (removeL p ch).1, (removeL p ch).2)

def removeL (p : Elem → Bool) : List Elem → List Elem × Bool
  | [] => ([], false)
  | c :: cs =>
    if p c then (cs, true)
    else if (removeE p c).2 then ((removeE p c).1 :: cs, true)
    else (c :: (removeL p cs).1, (removeL p cs).2)

end

/-- JS `existingButton.remove()` for the injected control. -/
def removeFirstById (d : Elem) : Elem :=
  (removeE hasId d).1

/-! ## Injection (`addMeetButton`) and force check (`performForceCheck`) -/

/-- JS `addMeetButton(dialog)`: refuse when the control is already present or
no visible save control anchors the injection; otherwise capture the save
control's styles, create the control, insert it right after the save
control and demote the save control.  Returns the source's Boolean
together with the updated dialog. -/
def addMeetButton (dialog : Elem) : Bool × Elem :=
  match qsById dialog with
  | some _ => (false, dialog)
  | none =>
    match findVisibleSaveButton dialog with
    | none => (false, dialog)
    | some saveBtn =>
      let computedStyles := getVisualStyles saveBtn
      let button := createMeetButton computedStyles
      let restyled := styleSaveButtonAsSecondaryT saveBtn dialog
      match spliceE saveBtn button restyled dialog with
      | (dialog', done) => (done, dialog')

/-- The force-check response
`{ status, dialogFound, reason, buttonAdded? }`. -/
structure ForceCheckResponse where
  status : String
  dialogFound : Bool
  reason : String
  buttonAdded : Option Bool
deriving DecidableEq

/-- JS `performForceCheck()` over the document body and the module-level
`isButtonAdded` flag: locate the dialog; remove a stale injected control
and clear the flag; short-circuit when conferencing is already active;
otherwise re-attempt injection.  Returns the response, the updated dialog
subtree when one was found, and the updated flag. -/
def performForceCheck (body : Elem) (isButtonAdded : Bool) :
    ForceCheckResponse × Option Elem × Bool :=
  match findEventDialog body with
  | none =>
    ({ status := "checked", dialogFound := false, reason := "No event dialog found",
       buttonAdded := none }, none, isButtonAdded)
  | some dialog =>
    let cleaned :=
      match qsById dialog with
      | some _ => (removeFirstById dialog, false)
      | none => (dialog, isButtonAdded)
    let dialog1 := cleaned.1
    let flag1 := cleaned.2
    if isVideoConferencingAlreadyAdded dialog1 then
      ({ status := "checked", dialogFound := true,
         reason := "Video conferencing already active", buttonAdded := none },
       some dialog1, flag1)
    else
      match addMeetButton dialog1 with
      | (added, dialog2) =>
        ({ status := "checked", dialogFound := true,
           reason := if added then "Button added" else "Could not add button",
           buttonAdded := some added },
         some dialog2, if added then true else flag1)

/-! ## Poller (`waitForElement`)

`waitForElement(checkFn, timeout, interval)` evaluates `checkFn` at once
and then on the fixed cadence `setTimeout(check, interval)`, so the k-th
evaluation happens `k * interval` ms after invocation.  The predicate is
an environment input: evaluation k either throws (the `catch` swallows
it), returns a falsy value, or returns the truthy value the promise would
resolve with. -/

/-- One evaluation of `checkFn` with the surrounding `try`/`catch`: a
thrown exception is treated exactly like a falsy result. -/
def caughtCheck {α : Type} (f : ℕ → Except String (Option α)) (k : ℕ) : Option α :=
  match f k with
  | .error _ => none
  | .ok r => r

/-- The outcome of the k-th scheduled `check` call: `some (some v)` means
the promise resolves with `v`, `some none` means the elapsed-time test
`Date.now() - startTime > timeout` fired and the promise resolves `null`,
`none` means another check is scheduled.  The truthiness test precedes the
elapsed-time test, as in the source. -/
def stepResult {α : Type} (f : ℕ → Except String (Option α)) (timeout interval k : ℕ) :
    Option (Option α) :=
  match caughtCheck f k with
  | some v => some (some v)
  | none => if k * interval > timeout then some none else none

/-- The promise resolves at check `k` with `res`: check `k` settles and no
earlier check did. -/
def ResolvesAt {α : Type} (f : ℕ → Except String (Option α)) (timeout interval k : ℕ)
    (res : Option α) : Prop :=
  stepResult f timeout interval k = some res ∧
    ∀ j < k, stepResult f timeout interval j = none

/-- The promise resolves at all: `waitForElement` terminates. -/
def Resolves {α : Type} (f : ℕ → Except String (Option α)) (timeout interval : ℕ)
    (res : Option α) : Prop :=
  ∃ k, ResolvesAt f timeout interval k res

/-! ## Strategy registry and invocation flow

The tree interactions a strategy and the commit step perform are recorded
as an action trace; the transient stealth style element is the Boolean
state threaded through `try`/`finally`.  The outcomes of the bounded
waits (externally-driven DOM changes) are oracle inputs. -/

/-- Observable interactions with the host tree during one invocation. -/
inductive Action where
  | clickVideo
  | clickMeetOption
  | clickSave
deriving DecidableEq

/-- Oracle outcomes of the bounded waits inside the strategies. -/
structure OracleEnv where
  directMeetAdded : Bool
  immediateAdd : Bool
  dropdownMeetOption : Bool
  dropdownMeetAdded : Bool
deriving DecidableEq

/-- JS `injectStealthStyles()`: the stealth style element is present. -/
def injectStealthStylesM : Bool → Bool := fun _ => true

/-- JS `removeStealthStyles()`: the stealth style element is absent. -/
def removeStealthStylesM : Bool → Bool := fun _ => false

/-- JS `try { body } finally { fin }` over an explicit state: the body's
result (normal or exceptional) stands, the final action runs on every
exit. -/
def tryFinallySt {σ ρ : Type} (body : σ → ρ × σ) (fin : σ → σ) (s : σ) : ρ × σ :=
  match body s with
  | (r, s') => (r, fin s')

/-- Strategy 1 execute: video conferencing already present, nothing to
do. -/
def executeAlreadyAdded (_dialog : Elem) (_env : OracleEnv) (st : Bool) :
    (Except String Unit × List Action) × Bool :=
  ((.ok (), []), st)

/-- Strategy 2 execute: simulate a click on the add-video control (a
no-op when the control is absent, as in `simulateClick`), then poll for
the Meet link; a timed-out poll is a hard error. -/
def executeDirectAdd (dialog : Elem) (env : OracleEnv) (st : Bool) :
    (Except String Unit × List Action) × Bool :=
  let tr :=
    match findVideoConferencingButton dialog with
    | some _ => [Action.clickVideo]
    | none => []
  if env.directMeetAdded then ((.ok (), tr), st)
  else ((.error "Google Meet link failed to attach after direct add", tr), st)

/-- The `try` body of the dropdown strategy: click the control (a null
control makes the member access throw), optimistic short poll, then the
dropdown search, click and terminal poll. -/
def dropdownBody (dialog : Elem) (env : OracleEnv) : Except String Unit × List Action :=
  match findVideoConferencingButton dialog with
  | none => (.error "TypeError: Cannot read properties of null", [])
  | some _ =>
    if env.immediateAdd then (.ok (), [Action.clickVideo])
    else if env.dropdownMeetOption then
      if env.dropdownMeetAdded then (.ok (), [Action.clickVideo, Action.clickMeetOption])
      else (.error "Google Meet link failed to attach after selection",
            [Action.clickVideo, Action.clickMeetOption])
    else (.error "Could not find Google Meet option in dropdown", [Action.clickVideo])

/-- Strategy 3 execute: stealth styles in, body under `try`, stealth
styles out in `finally`. -/
def executeDropdownMenu (dialog : Elem) (env : OracleEnv) (st : Bool) :
    (Except String Unit × List Action) × Bool :=
  tryFinallySt (fun s => (dropdownBody dialog env, s)) removeStealthStylesM
    (injectStealthStylesM st)

/-- A strategy descriptor, as in the `STRATEGIES` registry. -/
structure Strategy where
  name : String
  priority : ℕ
  detect : Elem → Except String Bool
  execute : Elem → OracleEnv → Bool → (Except String Unit × List Action) × Bool

def stratAlreadyAdded : Strategy :=
  { name := "Already Added"
    priority := 1
    detect := fun dialog => .ok (isVideoConferencingAlreadyAdded dialog)
    execute := executeAlreadyAdded }

def stratDirectAdd : Strategy :=
  { name := "Direct Add (Google Meet Button)"
    priority := 2
    detect := fun dialog =>
      .ok (match findVideoConferencingButton dialog with
           | none => false
           | some videoBtn => strContains (lowerStr (textContent videoBtn)) "google meet")
    execute := executeDirectAdd }

def stratDropdownMenu : Strategy :=
  { name := "Dropdown Menu (Single/Multi Provider)"
    priority := 3
    detect := fun dialog => .ok (findVideoConferencingButton dialog).isSome
    execute := executeDropdownMenu }

/-- JS `Object.values(STRATEGIES)` in insertion order. -/
def STRATEGIES_list : List Strategy :=
  [stratAlreadyAdded, stratDirectAdd, stratDropdownMenu]

/-- Stable insertion into a priority-sorted list (the comparator
`a.priority - b.priority`). -/
def insertByPriority (s : Strategy) : List Strategy → List Strategy
  | [] => [s]
  | t :: ts => if s.priority ≤ t.priority then s :: t :: ts else t :: insertByPriority s ts

/-- The `sort((a, b) => a.priority - b.priority)` of `selectStrategy`. -/
def sortByPriority : List Strategy → List Strategy
  | [] => []
  | s :: ss => insertByPriority s (sortByPriority ss)

/-- The loop body of `selectStrategy`: first strategy whose `detect`
returns true; a `detect` that throws is caught, logged and skipped. -/
def selectFrom : List Strategy → Elem → Option Strategy
  | [], _ => none
  | s :: rest, dialog =>
    match s.detect dialog with
    | .ok true => some s
    | .ok false => selectFrom rest dialog
    | .error _ => selectFrom rest dialog

/-- JS `selectStrategy(dialog)`. -/
def selectStrategy (dialog : Elem) : Option Strategy :=
  selectFrom (sortByPriority STRATEGIES_list) dialog

/-- JS `detect` evaluates to true without throwing. -/
def detectTrue (dialog : Elem) (s : Strategy) : Bool :=
  match s.detect dialog with
  | .ok true => true
  | _ => false

/-- Result of one invocation of the injected control. -/
structure FlowResult where
  outcome : Except String Unit
  trace : List Action

/-- The interactions of the commit step: one save click when the lookup
finds a control, none when it throws. -/
def commitTrace (dialog : Elem) : List Action :=
  match findSaveForCommit dialog with
  | some _ => [Action.clickSave]
  | none => []

/-- JS `handleMeetButtonClick` for a control whose dialog resolved (the
early-return guard for a detached control never enters the Working
state): classify, execute the selected strategy, commit; the `catch`
removes the stealth styles on error, and the `finally` schedules their
removal on every exit. -/
def handleMeetButtonClick (dialog : Elem) (env : OracleEnv) (st : Bool) :
    FlowResult × Bool :=
  let step : (Except String Unit × List Action) × Bool :=
    match selectStrategy dialog with
    | none =>
      ((.error "No compatible video conferencing strategy found for this dialog", []), st)
    | some strategy =>
      match strategy.execute dialog env st with
      | ((.ok _, tr), st1) =>
        match findSaveForCommit dialog with
        | some _ => ((Except.ok (), tr ++ [Action.clickSave]), st1)
        | none => ((.error "Could not find Save button", tr), st1)
      | ((.error e, tr), st1) => ((.error e, tr), st1)
  let st2 :=
    match step.1.1 with
    | .error _ => removeStealthStylesM step.2
    | .ok _ => step.2
  let st3 := removeStealthStylesM st2
  ({ outcome := step.1.1, trace := step.1.2 }, st3)

/-! ## Counting helpers for the verification statements -/

/-- Number of nodes with the configured button id in the subtree rooted at
an element (the element included). -/
def cntNode (e : Elem) : ℕ :=
  ((e :: descendants e).filter hasId).length

/-- Number of nodes with the configured button id in a forest. -/
def cntL (l : List Elem) : ℕ :=
  ((descList l).filter hasId).length

/-! ## Concrete elements used to instantiate the theorems -/

/-- A visible element with empty className, no computed-style entries and
no inline styles. -/
def el (tag : String) (attrs : List (String × String)) (txt : String)
    (ch : List Elem) : Elem :=
  .mk tag attrs "" txt false [] [] ch

/-- A dialog that already carries a real Meet link and also has a
direct-add control labelled with the provider name. -/
def dlgBoth : Elem :=
  el "div" [("role", "dialog")] ""
    [el "a" [("href", "https://meet.google.com/xyz-aaaa-bbb")] "" [],
     el "button" [] "Add Google Meet video conferencing" []]

/-- A dialog with a real Meet link and a visible Save control. -/
def dlgAlready : Elem :=
  el "div" [("role", "dialog")] ""
    [el "a" [("href", "https://meet.google.com/xyz-aaaa-bbb")] "" [],
     el "button" [] "Save" []]

/-- A dialog whose only conferencing link carries the placeholder example
code. -/
def dlgPlaceholder : Elem :=
  el "div" [("role", "dialog")] ""
    [el "a" [("href", "https://meet.google.com/abc-defg-hij")] "" []]

/-- A dialog with a visible Save control and no injected control. -/
def dlgSave : Elem :=
  el "div" [("role", "dialog")] "" [el "button" [] "Save" []]

/-- A dialog with no save control at all. -/
def dlgEmpty : Elem :=
  el "div" [("role", "dialog")] "" [el "span" [] "Untitled event" []]

/-- An invisible node matching the first commit selector
(`[data-action-id="save"]`), earlier in document order. -/
def invisSave : Elem :=
  .mk "button" [("data-action-id", "save")] "" "Save" true [("display", "none")] [] []

/-- A visible Save button, later in document order. -/
def visSave : Elem := el "button" [] "Save" []

/-- A dialog whose first commit-selector match is invisible while a
visible Save control follows it. -/
def cdCommit : Elem :=
  el "div" [("role", "dialog")] "" [invisSave, visSave]

/-- A found dialog for the force-check instantiation. -/
def dlg9 : Elem := el "div" [("role", "dialog")] "" [el "button" [] "Save" []]

/-- A document body containing `dlg9`. -/
def body9 : Elem := el "body" [] "" [dlg9]

/-- A strategy whose `detect` throws, for the classification
error-handling instantiation. -/
def stratThrowing : Strategy :=
  { name := "Throwing"
    priority := 0
    detect := fun _ => .error "boom"
    execute := executeAlreadyAdded }

/-- An oracle under which no externally-driven change is observed. -/
def envNo : OracleEnv :=
  { directMeetAdded := false, immediateAdd := false,
    dropdownMeetOption := false, dropdownMeetAdded := false }

/-! ## Theorems

Infrastructure first: lawfulness of the structural element equality,
decidable equality, then the lemma layer for the tree operations, and
finally one theorem per specification claim. -/

mutual

theorem elemBEq_iff : ∀ a b : Elem, elemBEq a b = true ↔ a = b
  | .mk t1 a1 c1 o1 p1 cs1 i1 ch1, .mk t2 a2 c2 o2 p2 cs2 i2 ch2 => by
    simp only [elemBEq, Bool.and_eq_true, beq_iff_eq, Elem.mk.injEq]
    rw [elemBEqL_iff ch1 ch2]
    tauto

theorem elemBEqL_iff : ∀ xs ys : List Elem, elemBEqL xs ys = true ↔ xs = ys
  | [], [] => by simp [elemBEqL]
  | x :: xs, y :: ys => by
    simp only [elemBEqL, Bool.and_eq_true, List.cons.injEq]
    rw [elemBEq_iff x y, elemBEqL_iff xs ys]
  | [], _ :: _ => by simp [elemBEqL]
  | _ :: _, [] => by simp [elemBEqL]

end

instance : DecidableEq Elem :=
  fun a b => decidable_of_iff (elemBEq a b = true) (elemBEq_iff a b)

theorem elemBEq_refl (e : Elem) : elemBEq e e = true :=
  (elemBEq_iff e e).mpr rfl

/-! ### Claim theorems are collected at the end of the file; the lemma
layer below serves them. -/

/-! ### Counting and traversal lemmas -/

@[simp] theorem descendants_mk (t a c o p cs i ch) :
    descendants (.mk t a c o p cs i ch) = descList ch := rfl

@[simp] theorem descList_nil : descList [] = [] := rfl

@[simp] theorem descList_cons (c : Elem) (cs : List Elem) :
    descList (c :: cs) = c :: (descendants c ++ descList cs) := rfl

@[simp] theorem hasId_mk (t a c o p cs i ch) :
    hasId (.mk t a c o p cs i ch) = (a.lookup "id" == some buttonIdStr) := rfl

@[simp] theorem cntL_nil : cntL [] = 0 := rfl

theorem cntL_cons (c : Elem) (cs : List Elem) :
    cntL (c :: cs) = cntNode c + cntL cs := by
  show ((descList (c :: cs)).filter hasId).length = _
  rw [descList_cons,
    show c :: (descendants c ++ descList cs) = (c :: descendants c) ++ descList cs from rfl,
    List.filter_append, List.length_append]
  rfl

theorem countById_mk (t a c o p cs i ch) :
    countById (.mk t a c o p cs i ch) = cntL ch := rfl

theorem cntNode_mk (t a c o p cs i ch) :
    cntNode (.mk t a c o p cs i ch) =
      (if hasId (.mk t a c o p cs i ch) then 1 else 0) + cntL ch := by
  simp only [cntNode, cntL, List.filter_cons, descendants_mk]
  split
  · rw [List.length_cons]; omega
  · omega

theorem cntNode_decomp (e : Elem) :
    cntNode e = (if hasId e then 1 else 0) + countById e := by
  cases e with
  | mk t a c o p cs i ch => rw [cntNode_mk, countById_mk]

theorem qsById_none_iff (d : Elem) : qsById d = none ↔ countById d = 0 := by
  simp only [qsById, qs, countById, qsa, List.find?_eq_none, List.length_eq_zero,
    List.filter_eq_nil_iff]

theorem qsById_isSome_of_mem (d x : Elem) (hx : x ∈ descendants d)
    (hid : hasId x = true) : (qsById d).isSome = true := by
  simp only [qsById, qs, List.find?_isSome]
  exact ⟨x, hx, hid⟩

/-! ### Splice lemmas -/

theorem hasId_spliceE (t b r e : Elem) : hasId (spliceE t b r e).1 = hasId e := by
  cases e with
  | mk tg a c o p cs i ch => rfl

mutual

theorem spliceE_not_found : ∀ t b r e : Elem,
    (spliceE t b r e).2 = false → (spliceE t b r e).1 = e
  | t, b, r, .mk tg a c o p cs i ch => by
    intro h
    simp only [spliceE] at h ⊢
    rw [spliceL_not_found t b r ch h]

theorem spliceL_not_found : ∀ (t b r : Elem) (l : List Elem),
    (spliceL t b r l).2 = false → (spliceL t b r l).1 = l
  | t, b, r, [] => by intro _; rfl
  | t, b, r, c :: cs => by
    intro h
    cases h1 : elemBEq c t with
    | true => simp [spliceL, h1] at h
    | false =>
      cases h2 : (spliceE t b r c).2 with
      | true => simp [spliceL, h1, h2] at h
      | false =>
        simp only [spliceL, h1, h2, Bool.false_eq_true, if_false] at h ⊢
        rw [spliceL_not_found t b r cs h]

end

mutual

theorem spliceE_cnt : ∀ t b r e : Elem, (spliceE t b r e).2 = true →
    countById (spliceE t b r e).1 + cntNode t = countById e + cntNode r + cntNode b
  | t, b, r, .mk tg a c o p cs i ch => by
    intro h
    simp only [spliceE] at h ⊢
    rw [countById_mk, countById_mk]
    exact spliceL_cnt t b r ch h

theorem spliceL_cnt : ∀ (t b r : Elem) (l : List Elem), (spliceL t b r l).2 = true →
    cntL (spliceL t b r l).1 + cntNode t = cntL l + cntNode r + cntNode b
  | t, b, r, [] => by intro h; simp [spliceL] at h
  | t, b, r, c :: cs => by
    intro h
    cases h1 : elemBEq c t with
    | true =>
      have hct : c = t := (elemBEq_iff c t).mp h1
      simp only [spliceL, h1, if_true]
      rw [cntL_cons, cntL_cons, cntL_cons, hct]
      omega
    | false =>
      cases h2 : (spliceE t b r c).2 with
      | true =>
        simp only [spliceL, h1, Bool.false_eq_true, if_false, h2, if_true]
        rw [cntL_cons, cntL_cons]
        have he := spliceE_cnt t b r c h2
        have hd1 := cntNode_decomp (spliceE t b r c).1
        have hd2 := cntNode_decomp c
        rw [hasId_spliceE] at hd1
        omega
      | false =>
        simp only [spliceL, h1, h2, Bool.false_eq_true, if_false] at h ⊢
        have := spliceL_cnt t b r cs h
        rw [cntL_cons, cntL_cons]
        omega

end

mutual

theorem spliceE_mem : ∀ t b r e : Elem, (spliceE t b r e).2 = true →
    b ∈ descendants (spliceE t b r e).1
  | t, b, r, .mk tg a c o p cs i ch => by
    intro h
    simp only [spliceE, descendants_mk] at h ⊢
    exact spliceL_mem t b r ch h

theorem spliceL_mem : ∀ (t b r : Elem) (l : List Elem), (spliceL t b r l).2 = true →
    b ∈ descList (spliceL t b r l).1
  | t, b, r, [] => by intro h; simp [spliceL] at h
  | t, b, r, c :: cs => by
    intro h
    cases h1 : elemBEq c t with
    | true =>
      simp only [spliceL, h1, if_true, descList_cons]
      exact List.mem_cons_of_mem _ (List.mem_append_right _ (by simp))
    | false =>
      cases h2 : (spliceE t b r c).2 with
      | true =>
        simp only [spliceL, h1, Bool.false_eq_true, if_false, h2, if_true, descList_cons]
        exact List.mem_cons_of_mem _ (List.mem_append_left _ (spliceE_mem t b r c h2))
      | false =>
        simp only [spliceL, h1, h2, Bool.false_eq_true, if_false] at h ⊢
        exact List.mem_cons_of_mem _
          (List.mem_append_right _ (spliceL_mem t b r cs h))

end

mutual

theorem spliceE_found : ∀ t b r e : Elem, t ∈ descendants e → (spliceE t b r e).2 = true
  | t, b, r, .mk tg a c o p cs i ch => by
    intro h
    simp only [descendants_mk] at h
    simp only [spliceE]
    exact spliceL_found t b r ch h

theorem spliceL_found : ∀ (t b r : Elem) (l : List Elem), t ∈ descList l →
    (spliceL t b r l).2 = true
  | t, b, r, [] => by intro h; simp at h
  | t, b, r, c :: cs => by
    intro h
    cases h1 : elemBEq c t with
    | true => simp [spliceL, h1]
    | false =>
      simp only [descList_cons, List.mem_cons, List.mem_append] at h
      rcases h with hct | hdesc | hcs
      · rw [hct] at h1
        rw [elemBEq_refl] at h1
        cases h1
      · have h2 := spliceE_found t b r c hdesc
        simp [spliceL, h1, h2]
      · cases h2 : (spliceE t b r c).2 with
        | true => simp [spliceL, h1, h2]
        | false =>
          have := spliceL_found t b r cs hcs
          simp [spliceL, h1, h2, this]

end

/-! ### Removal lemmas -/

theorem hasId_removeE (p : Elem → Bool) (e : Elem) :
    hasId (removeE p e).1 = hasId e := by
  cases e with
  | mk tg a c o pa cs i ch => rfl

mutual

theorem removeE_cnt : ∀ e : Elem, (removeE hasId e).2 = true →
    countById (removeE hasId e).1 + 1 ≤ countById e
  | .mk tg a c o pa cs i ch => by
    intro h
    simp only [removeE] at h ⊢
    rw [countById_mk, countById_mk]
    exact removeL_cnt ch h

theorem removeL_cnt : ∀ l : List Elem, (removeL hasId l).2 = true →
    cntL (removeL hasId l).1 + 1 ≤ cntL l
  | [] => by intro h; simp [removeL] at h
  | c :: cs => by
    intro h
    cases h1 : hasId c with
    | true =>
      simp only [removeL, h1, if_true]
      rw [cntL_cons]
      have hd := cntNode_decomp c
      rw [h1] at hd
      simp at hd
      omega
    | false =>
      cases h2 : (removeE hasId c).2 with
      | true =>
        simp only [removeL, h1, Bool.false_eq_true, if_false, h2, if_true]
        rw [cntL_cons, cntL_cons]
        have he := removeE_cnt c h2
        have hd1 := cntNode_decomp (removeE hasId c).1
        have hd2 := cntNode_decomp c
        rw [hasId_removeE] at hd1
        omega
      | false =>
        simp only [removeL, h1, h2, Bool.false_eq_true, if_false] at h ⊢
        have := removeL_cnt cs h
        rw [cntL_cons, cntL_cons]
        omega

end

/-! ### The demotion transform preserves id-counts -/

mutual

theorem setColorAllDeepE_cnt : ∀ (v : String) (e : Elem),
    cntNode (setColorAllDeepE v e) = cntNode e
  | v, .mk t a c o p cs i ch => by
    simp only [setColorAllDeepE]
    rw [cntNode_mk, cntNode_mk, setColorAllDeepL_cnt v ch]
    rfl

theorem setColorAllDeepL_cnt : ∀ (v : String) (l : List Elem),
    cntL (setColorAllDeepL v l) = cntL l
  | _, [] => rfl
  | v, c :: cs => by
    simp only [setColorAllDeepL]
    rw [cntL_cons, cntL_cons, setColorAllDeepE_cnt v c, setColorAllDeepL_cnt v cs]

end

theorem cntNode_setProp (k v : String) (e : Elem) :
    cntNode (setProp k v e) = cntNode e := by
  cases e with
  | mk t a c o p cs i ch => rw [setProp, cntNode_mk, cntNode_mk]; simp only [hasId_mk]

theorem cntNode_withClassName (c : String) (e : Elem) :
    cntNode (withClassName c e) = cntNode e := by
  cases e with
  | mk t a c0 o p cs i ch => rw [withClassName, cntNode_mk, cntNode_mk]; simp only [hasId_mk]

theorem cntNode_clearInline (e : Elem) : cntNode (clearInline e) = cntNode e := by
  cases e with
  | mk t a c o p cs i ch => rw [clearInline, cntNode_mk, cntNode_mk]; simp only [hasId_mk]

theorem cntNode_setColorDesc (v : String) (e : Elem) :
    cntNode (setColorDesc v e) = cntNode e := by
  cases e with
  | mk t a c o p cs i ch =>
    rw [setColorDesc, cntNode_mk, cntNode_mk, setColorAllDeepL_cnt v ch]
    simp only [hasId_mk]

theorem cntNode_foldl_setProp (props : List (String × String)) (e : Elem) :
    cntNode (props.foldl (fun e kv => setProp kv.1 kv.2 e) e) = cntNode e := by
  induction props generalizing e with
  | nil => rfl
  | cons kv rest ih => rw [List.foldl_cons, ih, cntNode_setProp]

theorem cntNode_applyClassesT (tc tcol : String) (sb : Elem) :
    cntNode (applyClassesT tc tcol sb) = cntNode sb := by
  rw [applyClassesT]
  cases h : (sb.className == tc) with
  | true => simp only [h, if_true, cntNode_setProp, cntNode_setColorDesc]
  | false =>
    simp only [h, Bool.false_eq_true, if_false, cntNode_setProp, cntNode_setColorDesc,
      cntNode_withClassName, cntNode_clearInline]

theorem cntNode_applyStylesFallbackT (sb : Elem) :
    cntNode (applyStylesFallbackT sb) = cntNode sb := by
  rw [applyStylesFallbackT, cntNode_setColorDesc, cntNode_foldl_setProp]

theorem cntNode_styleSecondary (sb dlg : Elem) :
    cntNode (styleSaveButtonAsSecondaryT sb dlg) = cntNode sb := by
  rw [styleSaveButtonAsSecondaryT]
  cases findMoreOptionsButton dlg with
  | some mo => exact cntNode_applyClassesT _ _ _
  | none => exact cntNode_applyStylesFallbackT _

theorem hasId_createMeetButton (s : VisualStyles) :
    hasId (createMeetButton s) = true := rfl

theorem cntNode_createMeetButton (s : VisualStyles) :
    cntNode (createMeetButton s) = 1 := rfl

/-! ### Injection lemmas -/

theorem findVisibleSaveButton_mem (d b : Elem)
    (h : findVisibleSaveButton d = some b) : b ∈ descendants d := by
  rw [findVisibleSaveButton] at h
  cases h1 : (qsa btnOrDivBtn d).find? (fun b =>
      trimChars (textContent b) == "Save" && isVisible b) with
  | some x =>
    rw [h1] at h
    cases h
    exact (List.mem_filter.mp (List.mem_of_find?_eq_some h1)).1
  | none =>
    rw [h1] at h
    cases h2 : (qsa dataActionSave d).find? isVisible with
    | some x =>
      rw [h2] at h
      cases h
      exact (List.mem_filter.mp (List.mem_of_find?_eq_some h2)).1
    | none =>
      rw [h2] at h
      exact (List.mem_filter.mp (List.mem_of_find?_eq_some h)).1

theorem addMeetButton_false (d : Elem) (h : (addMeetButton d).1 = false) :
    (addMeetButton d).2 = d := by
  rw [addMeetButton] at h ⊢
  cases hq : qsById d with
  | some x => simp [hq]
  | none =>
    cases hs : findVisibleSaveButton d with
    | none => simp [hq, hs]
    | some sb =>
      simp only [hq, hs] at h ⊢
      exact spliceE_not_found _ _ _ _ h

theorem addMeetButton_true_mem (d : Elem) (h : (addMeetButton d).1 = true) :
    (qsById (addMeetButton d).2).isSome = true := by
  rw [addMeetButton] at h ⊢
  cases hq : qsById d with
  | some x => simp [hq] at h
  | none =>
    cases hs : findVisibleSaveButton d with
    | none => simp [hq, hs] at h
    | some sb =>
      simp only [hq, hs] at h ⊢
      exact qsById_isSome_of_mem _ _ (spliceE_mem _ _ _ _ h)
        (hasId_createMeetButton _)

theorem addMeetButton_true_cnt (d : Elem) (h : (addMeetButton d).1 = true) :
    countById (addMeetButton d).2 = countById d + 1 := by
  rw [addMeetButton] at h ⊢
  cases hq : qsById d with
  | some x => simp [hq] at h
  | none =>
    cases hs : findVisibleSaveButton d with
    | none => simp [hq, hs] at h
    | some sb =>
      simp only [hq, hs] at h ⊢
      have hc := spliceE_cnt sb (createMeetButton (getVisualStyles sb))
        (styleSaveButtonAsSecondaryT sb d) d h
      rw [cntNode_styleSecondary, cntNode_createMeetButton] at hc
      omega

theorem addMeetButton_pair (d : Elem) :
    addMeetButton d = ((addMeetButton d).1, (addMeetButton d).2) := rfl

theorem addMeetButton_second (d : Elem) :
    addMeetButton (addMeetButton d).2 = (false, (addMeetButton d).2) := by
  cases h : (addMeetButton d).1 with
  | true =>
    have hm := addMeetButton_true_mem d h
    rw [addMeetButton]
    cases hq : qsById (addMeetButton d).2 with
    | some x => rfl
    | none => rw [hq] at hm; cases hm
  | false =>
    have he := addMeetButton_false d h
    rw [he]
    have : addMeetButton d = (false, d) := by
      rw [addMeetButton_pair d, h, he]
    rw [this]

/-! ### Strategy selection lemmas -/

theorem detectTrue_iff (d : Elem) (s : Strategy) :
    detectTrue d s = true ↔ s.detect d = Except.ok true := by
  rw [detectTrue]
  cases hd : s.detect d with
  | ok b => cases b <;> simp
  | error e => simp

theorem selectFrom_eq_find (l : List Strategy) (d : Elem) :
    selectFrom l d = l.find? (detectTrue d) := by
  induction l with
  | nil => rfl
  | cons s rest ih =>
    cases hd : s.detect d with
    | ok b =>
      cases b with
      | true => simp [selectFrom, List.find?_cons, detectTrue, hd]
      | false => simp [selectFrom, List.find?_cons, detectTrue, hd, ih]
    | error e => simp [selectFrom, List.find?_cons, detectTrue, hd, ih]

theorem sorted_strategies :
    sortByPriority STRATEGIES_list =
      [stratAlreadyAdded, stratDirectAdd, stratDropdownMenu] := rfl

mutual

theorem removeE_found : ∀ e x : Elem, x ∈ descendants e → hasId x = true →
    (removeE hasId e).2 = true
  | .mk tg a c o pa cs i ch => by
    intro x hx hid
    simp only [descendants_mk] at hx
    simp only [removeE]
    exact removeL_found ch x hx hid

theorem removeL_found : ∀ (l : List Elem) (x : Elem), x ∈ descList l → hasId x = true →
    (removeL hasId l).2 = true
  | [], x => by intro h _; simp at h
  | c :: cs, x => by
    intro h hid
    simp only [descList_cons, List.mem_cons, List.mem_append] at h
    cases h1 : hasId c with
    | true => simp [removeL, h1]
    | false =>
      rcases h with hxc | hdesc | hcs
      · rw [hxc] at hid; rw [hid] at h1; cases h1
      · have h2 := removeE_found c x hdesc hid
        simp [removeL, h1, h2]
      · cases h2 : (removeE hasId c).2 with
        | true => simp [removeL, h1, h2]
        | false =>
          have := removeL_found cs x hcs hid
          simp [removeL, h1, h2, this]

end

/-! ## Claim C1 -/

/-- C1: `selectStrategy` evaluates the registered strategies in strictly
ascending priority order and returns the first strategy whose detect
predicate returns true (`null` when none does); in particular, for any
dialog on which both the already-attached detect
(`isVideoConferencingAlreadyAdded`) and the direct-attach detect hold,
the selected strategy is always the already-attached one. -/
theorem claim1_priority_first_match (d : Elem)
    (h1 : isVideoConferencingAlreadyAdded d = true)
    (_h2 : stratDirectAdd.detect d = Except.ok true) :
    sortByPriority STRATEGIES_list =
      [stratAlreadyAdded, stratDirectAdd, stratDropdownMenu] ∧
    List.Chain' (fun a b => a.priority < b.priority) (sortByPriority STRATEGIES_list) ∧
    (∀ d' : Elem, selectStrategy d' =
      (sortByPriority STRATEGIES_list).find? (detectTrue d')) ∧
    selectStrategy d = some stratAlreadyAdded := by
  have hA : stratAlreadyAdded.detect d = Except.ok true := by
    simp [stratAlreadyAdded, h1]
  refine ⟨sorted_strategies, ?_, ?_, ?_⟩
  · rw [sorted_strategies]
    refine List.chain'_cons.mpr ⟨?_, List.chain'_cons.mpr ⟨?_, List.chain'_singleton _⟩⟩ <;>
      decide
  · intro d'
    rw [selectStrategy, selectFrom_eq_find]
  · rw [selectStrategy, sorted_strategies]
    simp [selectFrom, hA]

/-- Witness for C1 at a dialog satisfying both detect predicates. -/
theorem claim1_priority_first_match_witness :
    sortByPriority STRATEGIES_list =
      [stratAlreadyAdded, stratDirectAdd, stratDropdownMenu] ∧
    List.Chain' (fun a b => a.priority < b.priority) (sortByPriority STRATEGIES_list) ∧
    (∀ d' : Elem, selectStrategy d' =
      (sortByPriority STRATEGIES_list).find? (detectTrue d')) ∧
    selectStrategy dlgBoth = some stratAlreadyAdded :=
  claim1_priority_first_match dlgBoth (by decide) (by rfl)

/-! ## Claim C10 -/

/-- C10 (implicit): an exception thrown by a strategy's detect predicate
during classification is caught inside `selectStrategy`'s loop and treated
as does-not-match: evaluation continues with the next strategy, a
throwing detect is never selected, and classification returns `null`
exactly when every strategy's detect returned false or threw. -/
theorem claim10_detect_throw_skipped (s : Strategy) (rest : List Strategy) (d : Elem)
    (msg : String) (h : s.detect d = Except.error msg) :
    selectFrom (s :: rest) d = selectFrom rest d ∧
    (∀ (l : List Strategy) (s' : Strategy), selectFrom l d = some s' →
      s'.detect d = Except.ok true ∧ s' ∈ l) ∧
    (selectFrom (s :: rest) d = none ↔
      ∀ t ∈ s :: rest, ¬ t.detect d = Except.ok true) := by
  refine ⟨by simp [selectFrom, h], ?_, ?_⟩
  · intro l s' hsel
    rw [selectFrom_eq_find] at hsel
    exact ⟨(detectTrue_iff d s').mp (List.find?_some hsel),
      List.mem_of_find?_eq_some hsel⟩
  · rw [selectFrom_eq_find, List.find?_eq_none]
    constructor
    · intro hall t ht htrue
      exact hall t ht ((detectTrue_iff d t).mpr htrue)
    · intro hall t ht hdt
      exact hall t ht ((detectTrue_iff d t).mp hdt)

/-- Witness for C10 with a throwing strategy ahead of a matching one. -/
theorem claim10_detect_throw_skipped_witness :
    selectFrom (stratThrowing :: [stratAlreadyAdded]) dlgBoth =
      selectFrom [stratAlreadyAdded] dlgBoth ∧
    (∀ (l : List Strategy) (s' : Strategy), selectFrom l dlgBoth = some s' →
      s'.detect dlgBoth = Except.ok true ∧ s' ∈ l) ∧
    (selectFrom (stratThrowing :: [stratAlreadyAdded]) dlgBoth = none ↔
      ∀ t ∈ stratThrowing :: [stratAlreadyAdded],
        ¬ t.detect dlgBoth = Except.ok true) :=
  claim10_detect_throw_skipped stratThrowing [stratAlreadyAdded] dlgBoth "boom" rfl

/-! ## Claim C2 -/

/-- C2 (amended): for every `timeoutMs ≥ 0` and `intervalMs ≥ 1`,
`waitForElement` always resolves and never rejects: it resolves with the
first truthy value the predicate produces over the performed checks, a
thrown evaluation is swallowed and treated as not-yet-true, and a
predicate that never becomes truthy resolves `null` within
`timeoutMs + intervalMs` of invocation.  (With `intervalMs = 0` the bound
fails, see the counterexample.) -/
theorem claim2_bounded_wait {α : Type} (f : ℕ → Except String (Option α))
    (timeout interval : ℕ) (hint : 1 ≤ interval) :
    (∃ k res, ResolvesAt f timeout interval k res) ∧
    (∀ k v, ResolvesAt f timeout interval k (some v) →
      caughtCheck f k = some v ∧ ∀ j < k, caughtCheck f j = none) ∧
    ((∀ k, caughtCheck f k = none) →
      ResolvesAt f timeout interval (timeout / interval + 1) none ∧
      (timeout / interval + 1) * interval ≤ timeout + interval) ∧
    (∀ (g : ℕ → String) (k : ℕ),
      caughtCheck (fun n => (Except.error (g n) : Except String (Option α))) k = none) := by
  have hpos : 0 < interval := hint
  have hKgt : timeout < (timeout / interval + 1) * interval :=
    (Nat.div_lt_iff_lt_mul hpos).mp (Nat.lt_succ_self _)
  have hKle : (timeout / interval + 1) * interval ≤ timeout + interval := by
    have h1 : timeout / interval * interval ≤ timeout := Nat.div_mul_le_self _ _
    have h2 : (timeout / interval + 1) * interval =
        timeout / interval * interval + interval := by ring
    rw [h2]
    omega
  have hstepK : (stepResult f timeout interval (timeout / interval + 1)).isSome = true := by
    rw [stepResult]
    cases hc : caughtCheck f (timeout / interval + 1) with
    | some v => rfl
    | none => rw [if_pos hKgt]; rfl
  refine ⟨?_, ?_, ?_, ?_⟩
  · have hex : ∃ k, (stepResult f timeout interval k).isSome = true :=
      ⟨timeout / interval + 1, hstepK⟩
    obtain ⟨res, hres⟩ := Option.isSome_iff_exists.mp (Nat.find_spec hex)
    exact ⟨Nat.find hex, res, hres, fun j hj =>
      Option.not_isSome_iff_eq_none.mp (Nat.find_min hex hj)⟩
  · intro k v hres
    obtain ⟨hk, hmin⟩ := hres
    constructor
    · rw [stepResult] at hk
      cases hc : caughtCheck f k with
      | some w =>
        rw [hc] at hk
        cases hk
        rfl
      | none =>
        rw [hc] at hk
        split at hk <;> simp_all
    · intro j hj
      have hstep := hmin j hj
      rw [stepResult] at hstep
      cases hcj : caughtCheck f j with
      | some w => rw [hcj] at hstep; cases hstep
      | none => rfl
  · intro hnever
    refine ⟨⟨?_, ?_⟩, hKle⟩
    · rw [stepResult, hnever, if_pos hKgt]
    · intro j hj
      rw [stepResult, hnever, if_neg]
      intro habs
      have hle : j ≤ timeout / interval := Nat.lt_succ_iff.mp hj
      have : j * interval ≤ timeout / interval * interval :=
        Nat.mul_le_mul_right _ hle
      have hdm : timeout / interval * interval ≤ timeout := Nat.div_mul_le_self _ _
      omega
  · intro g k
    rfl

/-- Witness for C2 at a never-truthy predicate with timeout 5 and
interval 2. -/
theorem claim2_bounded_wait_witness :
    (∃ k res, ResolvesAt (fun _ => Except.ok (none : Option ℕ)) 5 2 k res) ∧
    (∀ k v, ResolvesAt (fun _ => Except.ok (none : Option ℕ)) 5 2 k (some v) →
      caughtCheck (fun _ => Except.ok (none : Option ℕ)) k = some v ∧
      ∀ j < k, caughtCheck (fun _ => Except.ok (none : Option ℕ)) j = none) ∧
    ((∀ k, caughtCheck (fun _ => Except.ok (none : Option ℕ)) k = none) →
      ResolvesAt (fun _ => Except.ok (none : Option ℕ)) 5 2 (5 / 2 + 1) none ∧
      (5 / 2 + 1) * 2 ≤ 5 + 2) ∧
    (∀ (g : ℕ → String) (k : ℕ),
      caughtCheck (fun n => (Except.error (g n) : Except String (Option ℕ))) k = none) :=
  claim2_bounded_wait (fun _ => Except.ok none) 5 2 (by decide)

/-- Counterexample for C2 as stated: with `timeoutMs = 0` and
`intervalMs = 0` the fixed-cadence wait never passes the strict
elapsed-time test, so it does not resolve `null` at all, let alone within
`timeoutMs + intervalMs`. -/
theorem claim2_counterexample :
    ¬ Resolves (fun _ => Except.ok (none : Option ℕ)) 0 0 none := by
  rintro ⟨k, hk, -⟩
  simp [stepResult, caughtCheck] at hk

/-! ## Claim C3 -/

/-- C3 (amended): at injection time, `findVisibleSaveButton` returns only
currently visible nodes and skips invisible matches: whenever it returns
a node that node is visible, and whenever the dialog contains a visible
save-matching node a node is returned.  At commit time, however,
`clickSaveButton`'s lookup returns the first selector or text match with
no visibility filtering (see the counterexample). -/
theorem claim3_visible_save_lookup (d b : Elem)
    (h : findVisibleSaveButton d = some b) :
    isVisible b = true ∧
    (∀ d' x : Elem, x ∈ descendants d' → saveCandidate x = true → isVisible x = true →
      (findVisibleSaveButton d').isSome = true) := by
  constructor
  · rw [findVisibleSaveButton] at h
    cases h1 : (qsa btnOrDivBtn d).find? (fun b =>
        trimChars (textContent b) == "Save" && isVisible b) with
    | some x =>
      rw [h1] at h
      cases h
      have hp := List.find?_some h1
      simp only [Bool.and_eq_true] at hp
      exact hp.2
    | none =>
      rw [h1] at h
      cases h2 : (qsa dataActionSave d).find? isVisible with
      | some x =>
        rw [h2] at h
        cases h
        exact List.find?_some h2
      | none =>
        rw [h2] at h
        exact List.find?_some h
  · intro d' x hx hc hv
    rw [findVisibleSaveButton]
    simp only [saveCandidate, Bool.or_eq_true, Bool.and_eq_true] at hc
    rcases hc with (⟨hb, ht⟩ | hda) | har
    · have hphase : ((qsa btnOrDivBtn d').find? (fun b =>
          trimChars (textContent b) == "Save" && isVisible b)).isSome = true := by
        rw [List.find?_isSome]
        exact ⟨x, List.mem_filter.mpr ⟨hx, hb⟩, by rw [ht, hv]; rfl⟩
      obtain ⟨y, hy⟩ := Option.isSome_iff_exists.mp hphase
      rw [hy]
      rfl
    · cases h1 : (qsa btnOrDivBtn d').find? (fun b =>
          trimChars (textContent b) == "Save" && isVisible b) with
      | some y => rfl
      | none =>
        have hphase : ((qsa dataActionSave d').find? isVisible).isSome = true := by
          rw [List.find?_isSome]
          exact ⟨x, List.mem_filter.mpr ⟨hx, hda⟩, hv⟩
        obtain ⟨y, hy⟩ := Option.isSome_iff_exists.mp hphase
        rw [hy]
        rfl
    · cases h1 : (qsa btnOrDivBtn d').find? (fun b =>
          trimChars (textContent b) == "Save" && isVisible b) with
      | some y => rfl
      | none =>
        cases h2 : (qsa dataActionSave d').find? isVisible with
        | some y => rfl
        | none =>
          rw [List.find?_isSome]
          exact ⟨x, List.mem_filter.mpr ⟨hx, har⟩, hv⟩

/-- Witness for C3 at a dialog with an invisible save match before a
visible one. -/
theorem claim3_visible_save_lookup_witness :
    isVisible visSave = true ∧
    (∀ d' x : Elem, x ∈ descendants d' → saveCandidate x = true → isVisible x = true →
      (findVisibleSaveButton d').isSome = true) :=
  claim3_visible_save_lookup cdCommit visSave (by decide)

/-- Counterexample for C3 as stated: at commit time the lookup of
`clickSaveButton` returns the invisible earlier `[data-action-id="save"]`
match even though a visible Save control follows it, while the
injection-time lookup skips it. -/
theorem claim3_counterexample :
    findSaveForCommit cdCommit = some invisSave ∧
    isVisible invisSave = false ∧
    findVisibleSaveButton cdCommit = some visSave ∧
    isVisible visSave = true := by
  refine ⟨by decide, by decide, by decide, by decide⟩

/-! ## Claim C4 -/

/-- C4: `isVideoConferencingAlreadyAdded` returns false for every dialog
in which each conferencing link's href carries a placeholder or example
value (`abc-defg-hij` or `placeholder`) and no other attachment marker (a
join-with-meet control or a `conferenceData` field) is present: a
placeholder link alone never classifies the dialog as already
attached. -/
theorem claim4_placeholder_not_attached (d : Elem)
    (hlink : ∀ e ∈ descendants d, meetLinkSel e = true →
      (strContains (getAttrD e "href") "abc-defg-hij" ||
        strContains (getAttrD e "href") "placeholder") = true)
    (hjoin : ∀ e ∈ descendants d, btnDivBtnOrAnchor e = true →
      joinWithMeetMarker e = false)
    (hconf : ∀ e ∈ descendants d, conferenceDataField e = false) :
    isVideoConferencingAlreadyAdded d = false := by
  rw [isVideoConferencingAlreadyAdded]
  have h1 : (qsa meetLinkSel d).any realMeetHref = false := by
    rw [List.any_eq_false]
    intro x hx
    obtain ⟨hxd, hsel⟩ := List.mem_filter.mp hx
    have hpl := hlink x hxd hsel
    cases hh : getAttr x "href" with
    | none => simp [realMeetHref, hh]
    | some s =>
      simp only [getAttrD, hh, Option.getD_some, Bool.or_eq_true] at hpl
      rcases hpl with hc | hc <;> simp [realMeetHref, hh, hc]
  have h2 : (qsa btnDivBtnOrAnchor d).any joinWithMeetMarker = false := by
    rw [List.any_eq_false]
    intro x hx
    obtain ⟨hxd, hsel⟩ := List.mem_filter.mp hx
    simp [hjoin x hxd hsel]
  have h3 : qs conferenceDataField d = none := by
    rw [qs, List.find?_eq_none]
    intro x hx
    simp [hconf x hx]
  rw [h1, h2, h3]
  rfl

/-- Witness for C4 at a dialog whose only link is the dormant template
placeholder. -/
theorem claim4_placeholder_not_attached_witness :
    (∀ e ∈ descendants dlgPlaceholder, meetLinkSel e = true →
      (strContains (getAttrD e "href") "abc-defg-hij" ||
        strContains (getAttrD e "href") "placeholder") = true) ∧
    isVideoConferencingAlreadyAdded dlgPlaceholder = false :=
  ⟨by decide,
    claim4_placeholder_not_attached dlgPlaceholder (by decide) (by decide) (by decide)⟩

/-! ## Claim C5 -/

/-- C5 (amended): injection is idempotent where it can anchor: for every
dialog with no control already present and a visible save control, the
first `addMeetButton` call succeeds and leaves exactly one action control
in the dialog; and for every dialog whatsoever, the second call returns
false and performs no modification.  (When no visible save control
exists, injection is skipped and no control is present — see the
counterexample.) -/
theorem claim5_idempotent_injection (d : Elem)
    (h0 : qsById d = none) (h1 : (findVisibleSaveButton d).isSome = true) :
    (addMeetButton d).1 = true ∧
    countById (addMeetButton d).2 = 1 ∧
    (∀ d' : Elem, addMeetButton (addMeetButton d').2 = (false, (addMeetButton d').2)) := by
  have hcnt0 : countById d = 0 := (qsById_none_iff d).mp h0
  obtain ⟨sb, hsb⟩ := Option.isSome_iff_exists.mp h1
  have htrue : (addMeetButton d).1 = true := by
    rw [addMeetButton, h0, hsb]
    exact spliceE_found _ _ _ _ (findVisibleSaveButton_mem d sb hsb)
  refine ⟨htrue, ?_, fun d' => addMeetButton_second d'⟩
  rw [addMeetButton_true_cnt d htrue, hcnt0]

/-- Witness for C5 at a dialog with a visible save control. -/
theorem claim5_idempotent_injection_witness :
    (addMeetButton dlgSave).1 = true ∧
    countById (addMeetButton dlgSave).2 = 1 ∧
    (∀ d' : Elem, addMeetButton (addMeetButton d').2 = (false, (addMeetButton d').2)) :=
  claim5_idempotent_injection dlgSave (by decide) (by decide)

/-- Counterexample for C5 as stated: on a dialog with no visible save
control both calls return false and zero action controls are present
afterwards, not exactly one. -/
theorem claim5_counterexample :
    (addMeetButton dlgEmpty).1 = false ∧
    countById (addMeetButton (addMeetButton dlgEmpty).2).2 = 0 := by
  exact ⟨by decide, by decide⟩

/-! ## Claim C6 -/

/-- C6: the dropdown strategy's transient stealth style treatment is
removed on every exit path: whatever the oracle outcomes (success, a
throwing body, or a later commit failure), both the strategy's own
`finally` and the invocation flow leave the stealth state cleared. -/
theorem claim6_stealth_cleanup : ∀ (d : Elem) (env : OracleEnv) (st : Bool),
    (executeDropdownMenu d env st).2 = false ∧
    (handleMeetButtonClick d env st).2 = false := by
  intro d env st
  exact ⟨rfl, rfl⟩

/-! ## Claim C7 -/

/-- C7: when the already-attached strategy is selected, its execute
performs no DOM interaction (empty action trace, untouched state), and
the invocation's whole interaction trace is exactly that of the commit
step. -/
theorem claim7_already_added_no_dom (d : Elem) (env : OracleEnv) (st : Bool)
    (h : isVideoConferencingAlreadyAdded d = true) :
    selectStrategy d = some stratAlreadyAdded ∧
    stratAlreadyAdded.execute d env st = ((Except.ok (), []), st) ∧
    (handleMeetButtonClick d env st).1.trace = commitTrace d := by
  have hA : stratAlreadyAdded.detect d = Except.ok true := by
    simp [stratAlreadyAdded, h]
  have hsel : selectStrategy d = some stratAlreadyAdded := by
    rw [selectStrategy, sorted_strategies]
    simp [selectFrom, hA]
  refine ⟨hsel, rfl, ?_⟩
  cases hc : findSaveForCommit d with
  | some sv =>
    simp [handleMeetButtonClick, hsel, stratAlreadyAdded, executeAlreadyAdded,
      commitTrace, hc]
  | none =>
    simp [handleMeetButtonClick, hsel, stratAlreadyAdded, executeAlreadyAdded,
      commitTrace, hc]

/-- Witness for C7 at a dialog with an existing Meet link and a save
control. -/
theorem claim7_already_added_no_dom_witness :
    selectStrategy dlgAlready = some stratAlreadyAdded ∧
    stratAlreadyAdded.execute dlgAlready envNo false = ((Except.ok (), []), false) ∧
    (handleMeetButtonClick dlgAlready envNo false).1.trace = commitTrace dlgAlready :=
  claim7_already_added_no_dom dlgAlready envNo false (by decide)

/-! ## Claim C8 -/

/-- C8: `findElementWithFallbacks` tries its rules strictly in the
configured order and returns the first rule's non-empty result; a rule
that fails with an invalid-query error is swallowed and treated as no
match, and when no rule matches the result is `null` — exactly the
first-successful-lookup reading (`fewfSpec`).  The lookup is a pure
function of the tree, so it mutates nothing by construction. -/
theorem claim8_fallback_order : ∀ (rules : List SelRule) (context : Elem),
    findElementWithFallbacks rules context = fewfSpec rules context := by
  intro rules context
  induction rules with
  | nil => rfl
  | cons r rest ih =>
    cases r with
    | error msg =>
      simp only [findElementWithFallbacks, fewfSpec, List.findSome?_cons]
      exact ih
    | ok p =>
      cases hq : qs p context with
      | some e =>
        simp only [findElementWithFallbacks, fewfSpec, List.findSome?_cons, hq]
      | none =>
        simp only [findElementWithFallbacks, fewfSpec, List.findSome?_cons, hq]
        exact ih

/-! ## Claim C9 -/

/-- C9: on a force check with a dialog found, a stale injected control is
removed and the session flag cleared before injection is re-attempted, so
a dialog holding at most one control holds at most one control afterwards
(repeated manual triggers are idempotent, not additive); the response
always has status `checked` with a `dialogFound` flag and a non-empty
reason. -/
theorem claim9_force_check (body : Elem) (flag : Bool) (dialog : Elem)
    (hfound : findEventDialog body = some dialog)
    (hcount : countById dialog ≤ 1) :
    (performForceCheck body flag).1.status = "checked" ∧
    (performForceCheck body flag).1.dialogFound = true ∧
    ¬ (performForceCheck body flag).1.reason = "" ∧
    (∃ d' : Elem, (performForceCheck body flag).2.1 = some d' ∧ countById d' ≤ 1) ∧
    ((qsById dialog).isSome = true →
      (performForceCheck body flag).1.buttonAdded ≠ some true →
      (performForceCheck body flag).2.2 = false) ∧
    (∀ (b : Elem) (f : Bool), (performForceCheck b f).1.status = "checked") := by
  have hstatus : ∀ (b : Elem) (f : Bool), (performForceCheck b f).1.status = "checked" := by
    intro b f
    rw [performForceCheck]
    cases hfd : findEventDialog b with
    | none => rfl
    | some dlg =>
      cases hq2 : qsById dlg with
      | some y =>
        cases hab : addMeetButton (removeFirstById dlg) with
        | mk added dlg2 =>
          cases hAdd2 : isVideoConferencingAlreadyAdded (removeFirstById dlg) with
          | true => simp [hq2, hAdd2]
          | false => simp [hq2, hAdd2, hab]
      | none =>
        cases hab : addMeetButton dlg with
        | mk added dlg2 =>
          cases hAdd2 : isVideoConferencingAlreadyAdded dlg with
          | true => simp [hq2, hAdd2]
          | false => simp [hq2, hAdd2, hab]
  -- the dialog after the stale-control cleanup holds no control
  have hclean : ∀ d1 : Elem,
      qsById dialog = some d1 → countById (removeFirstById dialog) = 0 := by
    intro d1 hq
    have hmem : d1 ∈ descendants dialog :=
      List.mem_of_find?_eq_some (show (descendants dialog).find? hasId = some d1 from hq)
    have hp : hasId d1 = true :=
      List.find?_some (show (descendants dialog).find? hasId = some d1 from hq)
    have hdone : (removeE hasId dialog).2 = true := removeE_found dialog d1 hmem hp
    have := removeE_cnt dialog hdone
    rw [removeFirstById]
    omega
  cases hq : qsById dialog with
  | some x =>
    have hc1 : countById (removeFirstById dialog) = 0 := hclean x hq
    cases hAdd : isVideoConferencingAlreadyAdded (removeFirstById dialog) with
    | true =>
      have heq : performForceCheck body flag =
          ({ status := "checked", dialogFound := true,
             reason := "Video conferencing already active", buttonAdded := none },
           some (removeFirstById dialog), false) := by
        rw [performForceCheck, hfound]
        simp [hq, hAdd]
      rw [heq]
      exact ⟨rfl, rfl, by simp, ⟨removeFirstById dialog, rfl, by omega⟩,
        fun _ _ => rfl, hstatus⟩
    | false =>
      cases hab : addMeetButton (removeFirstById dialog) with
      | mk added dlg2 =>
        have h1 : (addMeetButton (removeFirstById dialog)).1 = added := by rw [hab]
        have h2 : (addMeetButton (removeFirstById dialog)).2 = dlg2 := by rw [hab]
        cases added with
        | true =>
          have hcnt2 : countById dlg2 = 1 := by
            rw [← h2, addMeetButton_true_cnt _ h1, hc1]
          have heq : performForceCheck body flag =
              ({ status := "checked", dialogFound := true, reason := "Button added",
                 buttonAdded := some true }, some dlg2, true) := by
            rw [performForceCheck, hfound]
            simp [hq, hAdd, hab]
          rw [heq]
          exact ⟨rfl, rfl, by simp, ⟨dlg2, rfl, by omega⟩,
            fun _ hne => absurd rfl hne, hstatus⟩
        | false =>
          have hcnt2 : countById dlg2 = 0 := by
            rw [← h2, addMeetButton_false _ h1]
            exact hc1
          have heq : performForceCheck body flag =
              ({ status := "checked", dialogFound := true,
                 reason := "Could not add button", buttonAdded := some false },
               some dlg2, false) := by
            rw [performForceCheck, hfound]
            simp [hq, hAdd, hab]
          rw [heq]
          exact ⟨rfl, rfl, by simp, ⟨dlg2, rfl, by omega⟩, fun _ _ => rfl, hstatus⟩
  | none =>
    have hc0 : countById dialog = 0 := (qsById_none_iff dialog).mp hq
    cases hAdd : isVideoConferencingAlreadyAdded dialog with
    | true =>
      have heq : performForceCheck body flag =
          ({ status := "checked", dialogFound := true,
             reason := "Video conferencing already active", buttonAdded := none },
           some dialog, flag) := by
        rw [performForceCheck, hfound]
        simp [hq, hAdd]
      refine ⟨hstatus body flag, ?_, ?_, ?_, ?_, hstatus⟩
      · rw [heq]
      · rw [heq]; simp
      · rw [heq]; exact ⟨dialog, rfl, by omega⟩
      · intro hiso _; simp at hiso
    | false =>
      cases hab : addMeetButton dialog with
      | mk added dlg2 =>
        have h1 : (addMeetButton dialog).1 = added := by rw [hab]
        have h2 : (addMeetButton dialog).2 = dlg2 := by rw [hab]
        cases added with
        | true =>
          have hcnt2 : countById dlg2 = 1 := by
            rw [← h2, addMeetButton_true_cnt _ h1, hc0]
          have heq : performForceCheck body flag =
              ({ status := "checked", dialogFound := true, reason := "Button added",
                 buttonAdded := some true }, some dlg2, true) := by
            rw [performForceCheck, hfound]
            simp [hq, hAdd, hab]
          refine ⟨hstatus body flag, ?_, ?_, ?_, ?_, hstatus⟩
          · rw [heq]
          · rw [heq]; simp
          · rw [heq]; exact ⟨dlg2, rfl, by omega⟩
          · intro hiso _; simp at hiso
        | false =>
          have hcnt2 : countById dlg2 = 0 := by
            rw [← h2, addMeetButton_false _ h1]
            exact hc0
          have heq : performForceCheck body flag =
              ({ status := "checked", dialogFound := true,
                 reason := "Could not add button", buttonAdded := some false },
               some dlg2, flag) := by
            rw [performForceCheck, hfound]
            simp [hq, hAdd, hab]
          refine ⟨hstatus body flag, ?_, ?_, ?_, ?_, hstatus⟩
          · rw [heq]
          · rw [heq]; simp
          · rw [heq]; exact ⟨dlg2, rfl, by omega⟩
          · intro hiso _; simp at hiso

/-- Witness for C9 at a body containing a dialog with a save control and
no stale injected control. -/
theorem claim9_force_check_witness :
    (performForceCheck body9 false).1.status = "checked" ∧
    (performForceCheck body9 false).1.dialogFound = true ∧
    ¬ (performForceCheck body9 false).1.reason = "" ∧
    (∃ d' : Elem, (performForceCheck body9 false).2.1 = some d' ∧ countById d' ≤ 1) ∧
    ((qsById dlg9).isSome = true →
      (performForceCheck body9 false).1.buttonAdded ≠ some true →
      (performForceCheck body9 false).2.2 = false) ∧
    (∀ (b : Elem) (f : Bool), (performForceCheck b f).1.status = "checked") :=
  claim9_force_check body9 false dlg9 (by decide) (by decide)

end MeetAutoAdd
